import Mathlib

/-!
Verification of the Event Desk RSVP backend (interview-fs-v1).

The backend is an Express + better-sqlite3 application with two tables:

* `events` (backend/src/init_and_alter_db.ts and the CREATE TABLE in
  backend/src/server.ts): id INTEGER PRIMARY KEY AUTOINCREMENT, seven
  creator-supplied fields, status TEXT DEFAULT 'Created' with a CHECK
  constraint, created_at, and four RSVP counter columns defaulting to 0.
* `eventAttendees` (backend/src/db_create_attendees.ts): one RSVP row per
  (eventId, attendeeEmail) with UNIQUE(eventId, attendeeEmail), a CHECK on
  responseStatus, and a foreign key to events.

The embedding below models the store as lists of rows plus AUTOINCREMENT
counters, and each HTTP handler as a pure function from the store (and the
request data) to an HTTP status code plus the new store.  SQL integer
columns are modelled as `Int` (the counter columns can in principle go
negative, SQLite does not stop them), AUTOINCREMENT ids as `Nat`,
`CURRENT_TIMESTAMP` as an explicit `now : Nat` parameter supplied by the
caller.  JavaScript `undefined` for an optional body field is `Option.none`;
the JS truthiness tests (`!attendeeEmail`, `responseStatus || 'Pending'`,
`notes || null`) are modelled exactly, with the empty string falsy.
-/

namespace EventDesk

/-- The four allowed RSVP statuses, as in the `allowedStatuses` array of
backend/src/routes/attendees.ts and the CHECK constraint on
`eventAttendees.responseStatus`. -/
def allowedStatuses : List String := ["Pending", "Attending", "Not Attending", "Maybe"]

/-- A row of the `events` table. `eventDuration` is nullable and never set by
the create-event endpoint, hence `Option String`. -/
structure EventRow where
  id : Nat
  creatorEmail : String
  eventName : String
  description : String
  targetedAttendees : Int
  eventDate : String
  eventStartTime : String
  eventEndTime : String
  eventDuration : Option String
  status : String
  created_at : Nat
  attendingCount : Int
  notAttendingCount : Int
  maybeCount : Int
  pendingCount : Int
deriving DecidableEq, Repr

/-- A row of the `eventAttendees` table. -/
structure RsvpRow where
  id : Nat
  eventId : Nat
  attendeeEmail : String
  responseStatus : String
  rsvpDate : Nat
  notes : Option String
  created_at : Nat
deriving DecidableEq, Repr

/-- The SQLite database: both tables in insertion order, plus the
AUTOINCREMENT state of the id column of each table. -/
structure Store where
  events : List EventRow
  eventAttendees : List RsvpRow
  nextEventId : Nat
  nextRsvpId : Nat
deriving DecidableEq, Repr

/-- The email regex `/^[^\s@]+@[^\s@]+\.[^\s@]+$/` of the attendees route:
the string is `A@B.C` with `A`, `B`, `C` nonempty and free of whitespace
and `@`.  Equivalently: no whitespace anywhere, exactly one `@` with a
nonempty local part, and a `.` strictly inside the domain part. -/
def emailOk (s : String) : Bool :=
  match s.toList.splitOn '@' with
  | [lp, domain] =>
      decide (0 < lp.length) &&
      (lp ++ domain).all (fun c => !c.isWhitespace) &&
      ((domain.drop 1).dropLast.contains '.')
  | _ => false

/-- JS truthiness of the optional `responseStatus` body field
(`undefined` and `""` are falsy). -/
def statusTruthy : Option String → Bool
  | none => false
  | some s => s != ""

/-- The default `const finalResponseStatus = responseStatus || 'Pending';`. -/
def resolveStatus : Option String → String
  | none => "Pending"
  | some s => if s = "" then "Pending" else s

/-- The expression `notes || null` used when binding the notes column. -/
def normalizeNotes : Option String → Option String
  | none => none
  | some s => if s = "" then none else some s

/-- The WHERE clause `eventId = ? AND attendeeEmail = ?` used both by the
existing-attendee lookup and by the UPDATE of the RSVP row. -/
def matchesPair (eid : Nat) (email : String) (r : RsvpRow) : Bool :=
  r.eventId == eid && r.attendeeEmail == email

/-- One of `UPDATE events SET xCount = xCount + 1 WHERE id = ?`, picked by
the if/else-if chain over the status string in the attendees route. -/
def incCounter (st : String) (e : EventRow) : EventRow :=
  if st = "Attending" then { e with attendingCount := e.attendingCount + 1 }
  else if st = "Not Attending" then { e with notAttendingCount := e.notAttendingCount + 1 }
  else if st = "Maybe" then { e with maybeCount := e.maybeCount + 1 }
  else if st = "Pending" then { e with pendingCount := e.pendingCount + 1 }
  else e

/-- One of `UPDATE events SET xCount = xCount - 1 WHERE id = ?`, picked by
the if/else-if chain over the old status string. -/
def decCounter (st : String) (e : EventRow) : EventRow :=
  if st = "Attending" then { e with attendingCount := e.attendingCount - 1 }
  else if st = "Not Attending" then { e with notAttendingCount := e.notAttendingCount - 1 }
  else if st = "Maybe" then { e with maybeCount := e.maybeCount - 1 }
  else if st = "Pending" then { e with pendingCount := e.pendingCount - 1 }
  else e

/-- The statement `UPDATE events SET ... WHERE id = ?`: apply `f` to every events row whose
id matches. -/
def applyToEvent (eid : Nat) (f : EventRow → EventRow) (evs : List EventRow) : List EventRow :=
  evs.map fun e => if e.id == eid then f e else e

/-- The row update `UPDATE eventAttendees SET responseStatus = ?, notes = ?,
rsvpDate = CURRENT_TIMESTAMP WHERE eventId = ? AND attendeeEmail = ?`,
as the action on a single row. -/
def applyRsvpUpdate (now : Nat) (fs : String) (notes : Option String) (eid : Nat)
    (email : String) (r : RsvpRow) : RsvpRow :=
  if matchesPair eid email r then
    { r with responseStatus := fs, notes := normalizeNotes notes, rsvpDate := now }
  else r

/-- POST /api/events/:eventId/attendees (backend/src/routes/attendees.ts).

`eventId` is the result of `parseInt(req.params.eventId)` (the NaN case is
rejected by the same 400 branch as nonpositive values, so the model takes
the parsed integer).  Returns the HTTP status code and the store after the
call; every error branch returns the store unchanged, modelling the
BEGIN/ROLLBACK discipline of the handler.  In this sequential model the
catch-branch SQLite errors (409 on a UNIQUE race, 500) cannot occur: the
existing-row lookup runs in the same transaction as the insert. -/
def submitResponse (s : Store) (now : Nat) (eventId : Int) (attendeeEmail : String)
    (responseStatus : Option String) (notes : Option String) : Nat × Store :=
  if eventId ≤ 0 then (400, s)
  else if attendeeEmail = "" then (400, s)
  else if !emailOk attendeeEmail then (400, s)
  else if statusTruthy responseStatus && !(allowedStatuses.contains (responseStatus.getD "")) then
    (400, s)
  else
    let finalResponseStatus := resolveStatus responseStatus
    let eid := eventId.toNat
    match s.eventAttendees.find? (matchesPair eid attendeeEmail) with
    | some existing =>
        let oldStatus := existing.responseStatus
        let atts := s.eventAttendees.map
          (applyRsvpUpdate now finalResponseStatus notes eid attendeeEmail)
        let evs := applyToEvent eid (incCounter finalResponseStatus)
                     (applyToEvent eid (decCounter oldStatus) s.events)
        (200, { s with eventAttendees := atts, events := evs })
    | none =>
        if s.events.any (fun e => e.id == eid) then
          let newRow : RsvpRow :=
            { id := s.nextRsvpId, eventId := eid, attendeeEmail := attendeeEmail,
              responseStatus := finalResponseStatus, rsvpDate := now,
              notes := normalizeNotes notes, created_at := now }
          let evs := applyToEvent eid (incCounter finalResponseStatus) s.events
          (201, { s with eventAttendees := s.eventAttendees ++ [newRow],
                         events := evs, nextRsvpId := s.nextRsvpId + 1 })
        else (404, s)

/-- The body of POST /api/create-event; `none` is a field absent from the
JSON body.  `targetedAttendees : Option Int` models an integer-valued JSON
number (the route separately rejects non-numbers and non-integers with the
same 400 status, via `typeof` and `Number.isInteger`). -/
structure CreateEventRequest where
  creatorEmail : Option String
  eventName : Option String
  description : Option String
  targetedAttendees : Option Int
  eventDate : Option String
  eventStartTime : Option String
  eventEndTime : Option String
deriving DecidableEq, Repr

/-- JS falsiness of an optional string body field (`!field`): absent or
empty. -/
def falsyStr : Option String → Bool
  | none => true
  | some s => s == ""

/-- The missing-field test of POST /api/create-event: `!creatorEmail ||
!eventName || !description || targetedAttendees === undefined ||
!eventDate || !eventStartTime || !eventEndTime`. -/
def missingField (req : CreateEventRequest) : Bool :=
  falsyStr req.creatorEmail || falsyStr req.eventName || falsyStr req.description
    || req.targetedAttendees.isNone || falsyStr req.eventDate
    || falsyStr req.eventStartTime || falsyStr req.eventEndTime

/-- The row inserted by POST /api/create-event.  The INSERT names only the
seven submitted columns, so `eventDuration`, `status`, `created_at` and the
four counters take the schema defaults. -/
def newEventRow (s : Store) (now : Nat) (req : CreateEventRequest) (ta : Int) : EventRow :=
  { id := s.nextEventId,
    creatorEmail := req.creatorEmail.getD "",
    eventName := req.eventName.getD "",
    description := req.description.getD "",
    targetedAttendees := ta,
    eventDate := req.eventDate.getD "",
    eventStartTime := req.eventStartTime.getD "",
    eventEndTime := req.eventEndTime.getD "",
    eventDuration := none, status := "Created", created_at := now,
    attendingCount := 0, notAttendingCount := 0,
    maybeCount := 0, pendingCount := 0 }

/-- POST /api/create-event (backend/src/server.ts).  Returns
(status, returned eventId, new store). -/
def createEvent (s : Store) (now : Nat) (req : CreateEventRequest) :
    (Nat × Option Nat) × Store :=
  if missingField req then ((400, none), s)
  else
    match req.targetedAttendees with
    | none => ((400, none), s)
    | some ta =>
        if ta ≤ 0 then ((400, none), s)
        else
          ((201, some s.nextEventId),
            { s with events := s.events ++ [newEventRow s now req ta],
                     nextEventId := s.nextEventId + 1 })

/-- The query `SELECT * FROM events WHERE id = ?` (GET /api/events/:id). -/
def getEvent (s : Store) (eid : Nat) : Option EventRow :=
  s.events.find? (fun e => e.id == eid)

/-- The statement `UPDATE events SET status = ? WHERE id = ?` followed by the
`info.changes === 0` check shared by the publish and cancel routes. -/
def updateStatus (s : Store) (eid : Nat) (newStatus : String) : Nat × Store :=
  let updated := s.events.map fun e => if e.id == eid then { e with status := newStatus } else e
  let changes := s.events.countP (fun e => e.id == eid)
  if changes = 0 then (404, s) else (200, { s with events := updated })

/-- PUT /api/events/:id/publish. -/
def publishEvent (s : Store) (eid : Nat) : Nat × Store :=
  updateStatus s eid "Published"

/-- PUT /api/events/:id/cancel. -/
def cancelEvent (s : Store) (eid : Nat) : Nat × Store :=
  updateStatus s eid "Cancelled"

/-- The column list of the `events` table as created by
backend/src/init_and_alter_db.ts (identical in backend/src/server.ts):
`eventTime` was renamed to `eventStartTime`, so no `eventTime` column
exists. -/
def eventsTableColumns : List String :=
  ["id", "creatorEmail", "eventName", "description", "targetedAttendees", "eventDate",
   "eventStartTime", "eventEndTime", "eventDuration", "status", "created_at",
   "attendingCount", "notAttendingCount", "maybeCount", "pendingCount"]

/-- The columns referenced by the SELECT of GET /api/events-with-rsvp-counts
in backend/src/routes/attendees.ts (the `totalRsvps` expression only uses
the four counter columns). -/
def eventsWithCountsQueryColumns : List String :=
  ["id", "creatorEmail", "eventName", "description", "targetedAttendees", "eventDate",
   "eventTime", "created_at", "attendingCount", "notAttendingCount", "maybeCount",
   "pendingCount"]

/-- Insertion sort by `created_at` descending (ORDER BY created_at DESC). -/
def insertByCreatedAtDesc (e : EventRow) : List EventRow → List EventRow
  | [] => [e]
  | x :: xs => if e.created_at ≥ x.created_at then e :: x :: xs
               else x :: insertByCreatedAtDesc e xs

/-- Sort the events rows newest-created first. -/
def sortByCreatedAtDesc (evs : List EventRow) : List EventRow :=
  evs.foldr insertByCreatedAtDesc []

/-- GET /api/events-with-rsvp-counts.  `db.prepare` throws `no such column`
if the SQL references a column missing from the schema; the catch block of
the handler turns that into a 500 with no data.  Otherwise each row is returned with
`totalRsvps = attendingCount + notAttendingCount + maybeCount + pendingCount`,
ordered by `created_at DESC`. -/
def listEventsWithCounts (s : Store) : Nat × Option (List (EventRow × Int)) :=
  if eventsWithCountsQueryColumns.all (fun c => eventsTableColumns.contains c) then
    (200, some ((sortByCreatedAtDesc s.events).map fun e =>
      (e, e.attendingCount + e.notAttendingCount + e.maybeCount + e.pendingCount)))
  else (500, none)

/-- A single POST /api/events/:eventId/attendees request, for iterating
sequences of upserts. -/
structure SubmitCall where
  now : Nat
  eventId : Int
  attendeeEmail : String
  responseStatus : Option String
  notes : Option String
deriving DecidableEq, Repr

/-- Run a sequence of RSVP submissions left to right. -/
def submitAll (s : Store) : List SubmitCall → Store
  | [] => s
  | c :: cs =>
      submitAll (submitResponse s c.now c.eventId c.attendeeEmail c.responseStatus c.notes).2 cs

/-- Number of RSVP rows for a given event id. -/
def countRsvps (s : Store) (eid : Nat) : Nat :=
  s.eventAttendees.countP (fun r => r.eventId == eid)

/-- The sum of the four counter columns of one events row. -/
def sumCounters (e : EventRow) : Int :=
  e.attendingCount + e.notAttendingCount + e.maybeCount + e.pendingCount

/-- The count-consistency invariant: on every events row the four counters
sum to the number of RSVP rows for that event. -/
def CountConsistent (s : Store) : Prop :=
  ∀ e ∈ s.events, sumCounters e = (countRsvps s e.id : Int)

/-- The CHECK constraint on `eventAttendees.responseStatus`: every stored
status is one of the four allowed values. -/
def StatusesValid (s : Store) : Prop :=
  ∀ r ∈ s.eventAttendees, r.responseStatus ∈ allowedStatuses

/-- At most one RSVP row per (eventId, attendeeEmail): the
UNIQUE(eventId, attendeeEmail) constraint, as pairwise distinctness of the
key columns. -/
def PairsUnique (s : Store) : Prop :=
  s.eventAttendees.Pairwise
    (fun r r' => ¬ (r.eventId = r'.eventId ∧ r.attendeeEmail = r'.attendeeEmail))

/-- The AUTOINCREMENT guarantee on events.id: every existing id is below the
next id to be assigned. -/
def EventIdsFresh (s : Store) : Prop :=
  ∀ e ∈ s.events, e.id < s.nextEventId

/-- The empty database right after both CREATE TABLE statements. -/
def emptyStore : Store :=
  { events := [], eventAttendees := [], nextEventId := 1, nextRsvpId := 1 }

/-- A one-event store used to instantiate theorems on concrete inputs. -/
def demoEvent : EventRow :=
  { id := 1, creatorEmail := "org@x.com", eventName := "Launch", description := "d",
    targetedAttendees := 10, eventDate := "2025-01-01", eventStartTime := "10:00",
    eventEndTime := "12:00", eventDuration := none, status := "Created", created_at := 0,
    attendingCount := 0, notAttendingCount := 0, maybeCount := 0, pendingCount := 0 }

/-- Store holding `demoEvent` and no RSVPs. -/
def demoStore : Store :=
  { events := [demoEvent], eventAttendees := [], nextEventId := 2, nextRsvpId := 1 }

/-! ### Lemmas about the counter updates -/

theorem incCounter_id (st : String) (e : EventRow) : (incCounter st e).id = e.id := by
  unfold incCounter; split_ifs <;> rfl

theorem decCounter_id (st : String) (e : EventRow) : (decCounter st e).id = e.id := by
  unfold decCounter; split_ifs <;> rfl

theorem incCounter_decCounter (st : String) (e : EventRow) :
    incCounter st (decCounter st e) = e := by
  unfold incCounter decCounter; split_ifs <;> simp

theorem sumCounters_incCounter (st : String) (e : EventRow) (h : st ∈ allowedStatuses) :
    sumCounters (incCounter st e) = sumCounters e + 1 := by
  simp only [allowedStatuses, List.mem_cons, List.not_mem_nil, or_false] at h
  rcases h with rfl | rfl | rfl | rfl <;> simp [incCounter, sumCounters] <;> ring

theorem sumCounters_decCounter (st : String) (e : EventRow) (h : st ∈ allowedStatuses) :
    sumCounters (decCounter st e) = sumCounters e - 1 := by
  simp only [allowedStatuses, List.mem_cons, List.not_mem_nil, or_false] at h
  rcases h with rfl | rfl | rfl | rfl <;> simp [decCounter, sumCounters] <;> ring

theorem resolveStatus_mem (rs : Option String)
    (h : statusTruthy rs = true → rs.getD "" ∈ allowedStatuses) :
    resolveStatus rs ∈ allowedStatuses := by
  cases rs with
  | none => simp [resolveStatus, allowedStatuses]
  | some s =>
      by_cases hs : s = ""
      · simp [resolveStatus, hs, allowedStatuses]
      · have hmem := h (by simp [statusTruthy, hs])
        simpa [resolveStatus, hs] using hmem

theorem applyRsvpUpdate_eventId (now : Nat) (fs : String) (nts : Option String)
    (eid : Nat) (email : String) (r : RsvpRow) :
    (applyRsvpUpdate now fs nts eid email r).eventId = r.eventId := by
  unfold applyRsvpUpdate; split <;> rfl

theorem applyRsvpUpdate_attendeeEmail (now : Nat) (fs : String) (nts : Option String)
    (eid : Nat) (email : String) (r : RsvpRow) :
    (applyRsvpUpdate now fs nts eid email r).attendeeEmail = r.attendeeEmail := by
  unfold applyRsvpUpdate; split <;> rfl

theorem matchesPair_applyRsvpUpdate (eid' : Nat) (email' : String) (now : Nat) (fs : String)
    (nts : Option String) (eid : Nat) (email : String) (r : RsvpRow) :
    matchesPair eid' email' (applyRsvpUpdate now fs nts eid email r)
      = matchesPair eid' email' r := by
  unfold matchesPair
  rw [applyRsvpUpdate_eventId, applyRsvpUpdate_attendeeEmail]

theorem find?_map_applyRsvpUpdate (now : Nat) (fs : String) (nts : Option String)
    (eid : Nat) (email : String) (l : List RsvpRow) :
    (l.map (applyRsvpUpdate now fs nts eid email)).find? (matchesPair eid email)
      = (l.find? (matchesPair eid email)).map (applyRsvpUpdate now fs nts eid email) := by
  rw [List.find?_map]
  have hp : (matchesPair eid email ∘ applyRsvpUpdate now fs nts eid email)
      = matchesPair eid email :=
    funext fun r => matchesPair_applyRsvpUpdate eid email now fs nts eid email r
  rw [hp]

theorem countP_eventId_map_applyRsvpUpdate (now : Nat) (fs : String) (nts : Option String)
    (eid : Nat) (email : String) (l : List RsvpRow) (x : Nat) :
    (l.map (applyRsvpUpdate now fs nts eid email)).countP (fun r => r.eventId == x)
      = l.countP (fun r => r.eventId == x) := by
  rw [List.countP_map]
  congr 1
  funext r
  simp [Function.comp, applyRsvpUpdate_eventId]

theorem mem_applyToEvent {eid : Nat} {f : EventRow → EventRow} {evs : List EventRow}
    {e' : EventRow} :
    e' ∈ applyToEvent eid f evs ↔ ∃ e, e ∈ evs ∧ e' = if e.id == eid then f e else e := by
  unfold applyToEvent
  simp only [List.mem_map]
  constructor
  · rintro ⟨e, he, rfl⟩; exact ⟨e, he, rfl⟩
  · rintro ⟨e, he, rfl⟩; exact ⟨e, he, rfl⟩

theorem find?_applyToEvent (eid : Nat) (f : EventRow → EventRow)
    (hf : ∀ e, (f e).id = e.id) (evs : List EventRow) (x : Nat) :
    (applyToEvent eid f evs).find? (fun e => e.id == x)
      = (evs.find? (fun e => e.id == x)).map (fun e => if e.id == eid then f e else e) := by
  unfold applyToEvent
  rw [List.find?_map]
  have hp : ((fun e : EventRow => e.id == x) ∘ (fun e => if e.id == eid then f e else e))
      = fun e : EventRow => e.id == x := by
    funext e
    by_cases h : e.id == eid
    · simp [Function.comp, h, hf]
    · simp [Function.comp, h]
  rw [hp]

/-! ### Theorems about the claims -/

/-- Claim C6 (code bug in GET /api/events-with-rsvp-counts): the SELECT
references a column `eventTime` that does not exist in the events schema
(the schema has `eventStartTime`; the migration renames `eventTime` away),
so `db.prepare` throws and the handler answers 500 with no data on every
store.  The endpoint can never produce the promised 200 list. -/
theorem listEventsWithCounts_always_500 (s : Store) :
    listEventsWithCounts s = (500, none) := by
  simp only [listEventsWithCounts, if_neg (by decide :
    ¬ (eventsWithCountsQueryColumns.all (fun c => eventsTableColumns.contains c)) = true)]

/-- Claim C8: publish and cancel set the status of the matched event
unconditionally to Published resp. Cancelled regardless of its current
status, answer 200 when a row with that id exists, answer 404 exactly when
no row matched, and leave the store unchanged in the 404 case. -/
theorem lifecycle_publish_cancel (s : Store) (eid : Nat) :
    ((publishEvent s eid).1 = 404 ↔ ¬ ∃ e ∈ s.events, e.id = eid) ∧
    ((cancelEvent s eid).1 = 404 ↔ ¬ ∃ e ∈ s.events, e.id = eid) ∧
    ((∃ e ∈ s.events, e.id = eid) →
      (publishEvent s eid).1 = 200 ∧
      (∀ e' ∈ (publishEvent s eid).2.events, e'.id = eid → e'.status = "Published") ∧
      (cancelEvent s eid).1 = 200 ∧
      (∀ e' ∈ (cancelEvent s eid).2.events, e'.id = eid → e'.status = "Cancelled")) ∧
    ((publishEvent s eid).1 = 404 → (publishEvent s eid).2 = s) ∧
    ((cancelEvent s eid).1 = 404 → (cancelEvent s eid).2 = s) := by
  by_cases hP : s.events.countP (fun e => e.id == eid) = 0
  · have hno : ¬ ∃ e ∈ s.events, e.id = eid := by
      rw [List.countP_eq_zero] at hP
      rintro ⟨e, he, heq⟩
      exact hP e he (by simp [heq])
    simp [publishEvent, cancelEvent, updateStatus, hP, hno]
  · have hyes : ∃ e ∈ s.events, e.id = eid := by
      rcases List.countP_pos_iff.mp (Nat.pos_of_ne_zero hP) with ⟨e, he, hpe⟩
      exact ⟨e, he, by simpa using hpe⟩
    have hmem : ∀ st : String, ∀ e' ∈ (s.events.map
        (fun e => if e.id == eid then { e with status := st } else e)),
        e'.id = eid → e'.status = st := by
      intro st e' he' hid
      rcases List.mem_map.mp he' with ⟨e, he, rfl⟩
      by_cases h : e.id == eid
      · simp [h]
      · exfalso
        rw [if_neg h] at hid
        exact h (by simp [hid])
    refine ⟨?_, ?_, fun _ => ⟨?_, ?_, ?_, ?_⟩, ?_, ?_⟩
    · simp [publishEvent, updateStatus, hP, hyes]
    · simp [cancelEvent, updateStatus, hP, hyes]
    · simp [publishEvent, updateStatus, hP]
    · intro e' he' hid
      apply hmem "Published" e' _ hid
      simpa [publishEvent, updateStatus, hP] using he'
    · simp [cancelEvent, updateStatus, hP]
    · intro e' he' hid
      apply hmem "Cancelled" e' _ hid
      simpa [cancelEvent, updateStatus, hP] using he'
    · intro h
      exact absurd h (by simp [publishEvent, updateStatus, hP])
    · intro h
      exact absurd h (by simp [cancelEvent, updateStatus, hP])

/-- Witness for claim C8 on a concrete store: publishing event 1 succeeds
and stamps Published; publishing the absent event 2 answers 404. -/
theorem lifecycle_publish_cancel_witness :
    (∃ e ∈ demoStore.events, e.id = 1) ∧
    (publishEvent demoStore 1).1 = 200 ∧
    (∀ e' ∈ (publishEvent demoStore 1).2.events, e'.id = 1 → e'.status = "Published") ∧
    (publishEvent demoStore 2).1 = 404 :=
  ⟨by decide,
    ((lifecycle_publish_cancel demoStore 1).2.2.1 (by decide)).1,
    ((lifecycle_publish_cancel demoStore 1).2.2.1 (by decide)).2.1,
    (lifecycle_publish_cancel demoStore 2).1.mpr (by decide)⟩

theorem falsyStr_false_some {o : Option String} (h : falsyStr o = false) :
    o = some (o.getD "") := by
  cases o with
  | none => simp [falsyStr] at h
  | some s => rfl

/-- Claim C7: create-event rejects a request missing any of the seven
fields, or whose targetedAttendees is not a positive integer, with 400 and
inserts no row; a successful creation appends one row whose four counters
are zero and whose status is Created. -/
theorem createEvent_validation (s : Store) (now : Nat) (req : CreateEventRequest) :
    ((req.creatorEmail = none ∨ req.eventName = none ∨ req.description = none ∨
      req.targetedAttendees = none ∨ req.eventDate = none ∨ req.eventStartTime = none ∨
      req.eventEndTime = none) → createEvent s now req = ((400, none), s)) ∧
    (∀ ta : Int, req.targetedAttendees = some ta → ta ≤ 0 →
      createEvent s now req = ((400, none), s)) ∧
    ((createEvent s now req).1.1 = 201 →
      ∃ row : EventRow, (createEvent s now req).2.events = s.events ++ [row] ∧
        row.attendingCount = 0 ∧ row.notAttendingCount = 0 ∧ row.maybeCount = 0 ∧
        row.pendingCount = 0 ∧ row.status = "Created") := by
  refine ⟨?_, ?_, ?_⟩
  · intro h
    have hm : missingField req = true := by
      rcases h with h | h | h | h | h | h | h <;> simp [missingField, h, falsyStr]
    simp [createEvent, hm]
  · intro ta hta hle
    cases hm : missingField req with
    | true => simp [createEvent, hm]
    | false => simp [createEvent, hm, hta, hle]
  · intro h201
    cases hm : missingField req with
    | true => exfalso; simp [createEvent, hm] at h201
    | false =>
        cases hta : req.targetedAttendees with
        | none => exfalso; simp [createEvent, hm, hta] at h201
        | some ta =>
            by_cases hle : ta ≤ 0
            · exfalso; simp [createEvent, hm, hta, hle] at h201
            · refine ⟨newEventRow s now req ta, ?_, rfl, rfl, rfl, rfl, rfl⟩
              simp [createEvent, hm, hta, hle]

/-- A well-formed create-event request used for witnesses. -/
def reqFull : CreateEventRequest :=
  { creatorEmail := some "org@x.com", eventName := some "Launch", description := some "d",
    targetedAttendees := some 10, eventDate := some "2025-01-01",
    eventStartTime := some "10:00", eventEndTime := some "12:00" }

/-- Request `reqFull` with its description removed. -/
def reqNoDescription : CreateEventRequest := { reqFull with description := none }

/-- Request `reqFull` with a nonpositive attendee target. -/
def reqZeroTa : CreateEventRequest := { reqFull with targetedAttendees := some 0 }

/-- Witness for claim C7 on concrete requests. -/
theorem createEvent_validation_witness :
    createEvent emptyStore 7 reqNoDescription = ((400, none), emptyStore) ∧
    createEvent emptyStore 7 reqZeroTa = ((400, none), emptyStore) ∧
    (∃ row, (createEvent emptyStore 7 reqFull).2.events = emptyStore.events ++ [row] ∧
      row.attendingCount = 0 ∧ row.notAttendingCount = 0 ∧ row.maybeCount = 0 ∧
      row.pendingCount = 0 ∧ row.status = "Created") :=
  ⟨(createEvent_validation emptyStore 7 reqNoDescription).1 (Or.inr (Or.inr (Or.inl rfl))),
   (createEvent_validation emptyStore 7 reqZeroTa).2.1 0 rfl (by decide),
   (createEvent_validation emptyStore 7 reqFull).2.2 (by decide)⟩

/-- Claim C9: after a valid creation, reading the returned id gives back the
seven submitted fields unchanged plus the server-assigned id, status
Created and the creation timestamp. -/
theorem createEvent_roundTrip (s : Store) (now : Nat) (req : CreateEventRequest)
    (hfresh : EventIdsFresh s)
    (h1 : falsyStr req.creatorEmail = false) (h2 : falsyStr req.eventName = false)
    (h3 : falsyStr req.description = false) (h4 : falsyStr req.eventDate = false)
    (h5 : falsyStr req.eventStartTime = false) (h6 : falsyStr req.eventEndTime = false)
    (ta : Int) (hta : req.targetedAttendees = some ta) (hpos : 0 < ta) :
    (createEvent s now req).1.1 = 201 ∧
    (createEvent s now req).1.2 = some s.nextEventId ∧
    ∃ row : EventRow,
      getEvent (createEvent s now req).2 s.nextEventId = some row ∧
      req.creatorEmail = some row.creatorEmail ∧ req.eventName = some row.eventName ∧
      req.description = some row.description ∧ row.targetedAttendees = ta ∧
      req.eventDate = some row.eventDate ∧ req.eventStartTime = some row.eventStartTime ∧
      req.eventEndTime = some row.eventEndTime ∧ row.status = "Created" ∧
      row.created_at = now ∧ row.id = s.nextEventId := by
  have hm : missingField req = false := by
    simp [missingField, h1, h2, h3, h4, h5, h6, hta]
  have hnle : ¬ ta ≤ 0 := by omega
  have hfind : (s.events).find? (fun e => e.id == s.nextEventId) = none :=
    List.find?_eq_none.mpr (fun e he => by
      simpa using Nat.ne_of_lt (hfresh e he))
  refine ⟨?_, ?_, ?_⟩
  · simp [createEvent, hm, hta, hnle]
  · simp [createEvent, hm, hta, hnle]
  · refine ⟨newEventRow s now req ta,
      ?_, falsyStr_false_some h1, falsyStr_false_some h2, falsyStr_false_some h3, rfl,
      falsyStr_false_some h4, falsyStr_false_some h5, falsyStr_false_some h6, rfl, rfl, rfl⟩
    simp [createEvent, hm, hta, hnle, getEvent, hfind, newEventRow]

/-- Witness for claim C9: creating `reqFull` in the empty store and reading
event 1 back. -/
theorem createEvent_roundTrip_witness :
    (createEvent emptyStore 7 reqFull).1.1 = 201 ∧
    (createEvent emptyStore 7 reqFull).1.2 = some emptyStore.nextEventId ∧
    ∃ row : EventRow,
      getEvent (createEvent emptyStore 7 reqFull).2 emptyStore.nextEventId = some row ∧
      reqFull.creatorEmail = some row.creatorEmail ∧
      reqFull.eventName = some row.eventName ∧
      reqFull.description = some row.description ∧ row.targetedAttendees = 10 ∧
      reqFull.eventDate = some row.eventDate ∧
      reqFull.eventStartTime = some row.eventStartTime ∧
      reqFull.eventEndTime = some row.eventEndTime ∧ row.status = "Created" ∧
      row.created_at = 7 ∧ row.id = emptyStore.nextEventId :=
  createEvent_roundTrip emptyStore 7 reqFull
    (by simp [EventIdsFresh, emptyStore]) rfl rfl rfl rfl rfl rfl 10 rfl (by decide)

/-! ### Shape lemmas for the four outcomes of submitResponse -/

/-- The new RSVP row written by the insert branch. -/
def newRsvpRow (s : Store) (now : Nat) (eid : Nat) (email : String) (fs : String)
    (nts : Option String) : RsvpRow :=
  { id := s.nextRsvpId, eventId := eid, attendeeEmail := email,
    responseStatus := fs, rsvpDate := now, notes := normalizeNotes nts, created_at := now }

theorem submitResponse_invalid {eventId : Int} {email : String} {rs : Option String}
    (s : Store) (now : Nat) (nts : Option String)
    (h : eventId ≤ 0 ∨ email = "" ∨ ¬ emailOk email = true ∨
      (statusTruthy rs = true ∧ rs.getD "" ∉ allowedStatuses)) :
    submitResponse s now eventId email rs nts = (400, s) := by
  by_cases h1 : eventId ≤ 0
  · simp [submitResponse, h1]
  · by_cases h2 : email = ""
    · simp [submitResponse, h1, h2]
    · by_cases h3 : emailOk email = true
      · have h4 : statusTruthy rs = true ∧ rs.getD "" ∉ allowedStatuses := by tauto
        simp [submitResponse, h1, h2, h3, h4.1, h4.2]
      · simp only [Bool.not_eq_true] at h3
        simp [submitResponse, h1, h2, h3]

theorem submitResponse_update {eventId : Int} {email : String} {rs : Option String}
    (s : Store) (now : Nat) (nts : Option String)
    (h1 : ¬ eventId ≤ 0) (h2 : email ≠ "") (h3 : emailOk email = true)
    (h4 : statusTruthy rs = true → rs.getD "" ∈ allowedStatuses)
    (ex : RsvpRow)
    (hfind : s.eventAttendees.find? (matchesPair eventId.toNat email) = some ex) :
    submitResponse s now eventId email rs nts =
      (200, { s with
        eventAttendees := s.eventAttendees.map
          (applyRsvpUpdate now (resolveStatus rs) nts eventId.toNat email),
        events := applyToEvent eventId.toNat (incCounter (resolveStatus rs))
          (applyToEvent eventId.toNat (decCounter ex.responseStatus) s.events) }) := by
  simp [submitResponse, h1, h2, h3, hfind, applyRsvpUpdate]
  exact h4

theorem submitResponse_insert {eventId : Int} {email : String} {rs : Option String}
    (s : Store) (now : Nat) (nts : Option String)
    (h1 : ¬ eventId ≤ 0) (h2 : email ≠ "") (h3 : emailOk email = true)
    (h4 : statusTruthy rs = true → rs.getD "" ∈ allowedStatuses)
    (hfind : s.eventAttendees.find? (matchesPair eventId.toNat email) = none)
    (hev : ∃ e ∈ s.events, e.id = eventId.toNat) :
    submitResponse s now eventId email rs nts =
      (201, { s with
        eventAttendees := s.eventAttendees
          ++ [newRsvpRow s now eventId.toNat email (resolveStatus rs) nts],
        events := applyToEvent eventId.toNat (incCounter (resolveStatus rs)) s.events,
        nextRsvpId := s.nextRsvpId + 1 }) := by
  simp [submitResponse, h1, h2, h3, hfind, hev, newRsvpRow]
  exact h4

theorem submitResponse_notFound {eventId : Int} {email : String} {rs : Option String}
    (s : Store) (now : Nat) (nts : Option String)
    (h1 : ¬ eventId ≤ 0) (h2 : email ≠ "") (h3 : emailOk email = true)
    (h4 : statusTruthy rs = true → rs.getD "" ∈ allowedStatuses)
    (hfind : s.eventAttendees.find? (matchesPair eventId.toNat email) = none)
    (hev : ¬ ∃ e ∈ s.events, e.id = eventId.toNat) :
    submitResponse s now eventId email rs nts = (404, s) := by
  simp [submitResponse, h1, h2, h3, hfind, hev]
  exact h4

theorem applyToEvent_inc_dec_cancel (eid : Nat) (st : String) (l : List EventRow) :
    applyToEvent eid (incCounter st) (applyToEvent eid (decCounter st) l) = l := by
  unfold applyToEvent
  rw [List.map_map]
  induction l with
  | nil => rfl
  | cons e t ih =>
      simp only [List.map_cons, ih]
      by_cases he : e.id == eid
      · simp [Function.comp, he, decCounter_id, incCounter_decCounter]
      · simp [Function.comp, he]

theorem submitResponse_twice_events (s : Store) (now1 now2 : Nat) (eventId : Int)
    (email : String) (rs nts1 nts2 : Option String) :
    ((submitResponse (submitResponse s now1 eventId email rs nts1).2
        now2 eventId email rs nts2).2).events
      = ((submitResponse s now1 eventId email rs nts1).2).events := by
  by_cases hval : eventId ≤ 0 ∨ email = "" ∨ ¬ emailOk email = true ∨
      (statusTruthy rs = true ∧ rs.getD "" ∉ allowedStatuses)
  · rw [submitResponse_invalid s now1 nts1 hval]
    rw [submitResponse_invalid s now2 nts2 hval]
  · push_neg at hval
    obtain ⟨h1, h2, h3, h4⟩ := hval
    replace h1 : ¬ eventId ≤ 0 := not_le.mpr h1
    cases hfind : s.eventAttendees.find? (matchesPair eventId.toNat email) with
    | some ex =>
        rw [submitResponse_update s now1 nts1 h1 h2 h3 h4 ex hfind]
        have hfind2 : ((s.eventAttendees.map
            (applyRsvpUpdate now1 (resolveStatus rs) nts1 eventId.toNat email)).find?
              (matchesPair eventId.toNat email))
            = some (applyRsvpUpdate now1 (resolveStatus rs) nts1 eventId.toNat email ex) := by
          rw [find?_map_applyRsvpUpdate, hfind]
          rfl
        rw [submitResponse_update _ now2 nts2 h1 h2 h3 h4 _ hfind2]
        have hexm : matchesPair eventId.toNat email ex = true := List.find?_some hfind
        have hst : (applyRsvpUpdate now1 (resolveStatus rs) nts1
            eventId.toNat email ex).responseStatus = resolveStatus rs := by
          simp [applyRsvpUpdate, hexm]
        simp only [hst]
        exact applyToEvent_inc_dec_cancel eventId.toNat (resolveStatus rs) _
    | none =>
        by_cases hev : ∃ e ∈ s.events, e.id = eventId.toNat
        · rw [submitResponse_insert s now1 nts1 h1 h2 h3 h4 hfind hev]
          have hfind2 : ((s.eventAttendees
              ++ [newRsvpRow s now1 eventId.toNat email (resolveStatus rs) nts1]).find?
                (matchesPair eventId.toNat email))
              = some (newRsvpRow s now1 eventId.toNat email (resolveStatus rs) nts1) := by
            rw [List.find?_append, hfind]
            simp [newRsvpRow, matchesPair]
          rw [submitResponse_update _ now2 nts2 h1 h2 h3 h4 _ hfind2]
          simp only [newRsvpRow]
          exact applyToEvent_inc_dec_cancel eventId.toNat (resolveStatus rs) _
        · rw [submitResponse_notFound s now1 nts1 h1 h2 h3 h4 hfind hev,
              submitResponse_notFound s now2 nts2 h1 h2 h3 h4 hfind hev]

/-- Claim C2: submitting the same responseStatus twice in a row leaves all
four counters of every event, after the second call, identical to their
values after the first call (the decrement and increment cancel when the
old and new status agree). -/
theorem submit_idempotent (s : Store) (now1 now2 : Nat) (eventId : Int) (email : String)
    (rs nts1 nts2 : Option String) :
    (((submitResponse (submitResponse s now1 eventId email rs nts1).2
        now2 eventId email rs nts2).2).events.map
      (fun e => (e.attendingCount, e.notAttendingCount, e.maybeCount, e.pendingCount)))
      = ((submitResponse s now1 eventId email rs nts1).2).events.map
        (fun e => (e.attendingCount, e.notAttendingCount, e.maybeCount, e.pendingCount)) := by
  rw [submitResponse_twice_events]

/-- Claim C5: with valid inputs, when no RSVP row exists for the pair and no
event has the id, the call answers 404 with the store untouched; and more
generally every non-2xx outcome of the endpoint leaves the store exactly as
it was (transaction rollback, no partial write). -/
theorem submit_notFound_rollback (s : Store) (now : Nat) (eventId : Int) (email : String)
    (rs nts : Option String) :
    ((¬ eventId ≤ 0) → email ≠ "" → emailOk email = true →
      (statusTruthy rs = true → rs.getD "" ∈ allowedStatuses) →
      s.eventAttendees.find? (matchesPair eventId.toNat email) = none →
      (¬ ∃ e ∈ s.events, e.id = eventId.toNat) →
      submitResponse s now eventId email rs nts = (404, s)) ∧
    ((submitResponse s now eventId email rs nts).1 ≠ 200 →
      (submitResponse s now eventId email rs nts).1 ≠ 201 →
      (submitResponse s now eventId email rs nts).2 = s) := by
  constructor
  · intro h1 h2 h3 h4 hfind hev
    exact submitResponse_notFound s now nts h1 h2 h3 h4 hfind hev
  · intro hn200 hn201
    by_cases hval : eventId ≤ 0 ∨ email = "" ∨ ¬ emailOk email = true ∨
        (statusTruthy rs = true ∧ rs.getD "" ∉ allowedStatuses)
    · rw [submitResponse_invalid s now nts hval]
    · push_neg at hval
      obtain ⟨h1, h2, h3, h4⟩ := hval
      replace h1 : ¬ eventId ≤ 0 := not_le.mpr h1
      cases hfind : s.eventAttendees.find? (matchesPair eventId.toNat email) with
      | some ex =>
          exfalso
          apply hn200
          rw [submitResponse_update s now nts h1 h2 h3 h4 ex hfind]
      | none =>
          by_cases hev : ∃ e ∈ s.events, e.id = eventId.toNat
          · exfalso
            apply hn201
            rw [submitResponse_insert s now nts h1 h2 h3 h4 hfind hev]
          · rw [submitResponse_notFound s now nts h1 h2 h3 h4 hfind hev]

/-- Witness for claim C5: submitting for the absent event 5 of the empty
store answers 404 and returns the store unchanged. -/
theorem submit_notFound_rollback_witness :
    submitResponse emptyStore 3 5 "a@x.com" none none = (404, emptyStore) :=
  (submit_notFound_rollback emptyStore 3 5 "a@x.com" none none).1 (by decide) (by decide)
    (by decide) (by decide) rfl (by decide)

/-- Claim C10: an empty-string responseStatus slips past the enum check
(it is falsy), the call behaves exactly as if the field were absent, and an
insert writes the default status Pending. -/
theorem submit_emptyStatus_default (s : Store) (now : Nat) (eventId : Int) (email : String)
    (nts : Option String) :
    submitResponse s now eventId email (some "") nts
      = submitResponse s now eventId email none nts ∧
    ((¬ eventId ≤ 0) → email ≠ "" → emailOk email = true →
      s.eventAttendees.find? (matchesPair eventId.toNat email) = none →
      (∃ e ∈ s.events, e.id = eventId.toNat) →
      (submitResponse s now eventId email (some "") nts).1 = 201 ∧
      (submitResponse s now eventId email (some "") nts).2.eventAttendees
        = s.eventAttendees ++ [newRsvpRow s now eventId.toNat email "Pending" nts]) := by
  constructor
  · simp [submitResponse, statusTruthy, resolveStatus]
  · intro h1 h2 h3 hfind hev
    have h4 : statusTruthy (some "") = true → (some "").getD "" ∈ allowedStatuses := by decide
    rw [submitResponse_insert s now nts h1 h2 h3 h4 hfind hev]
    exact ⟨rfl, rfl⟩

/-- Witness for claim C10: an empty responseStatus on the demo store is
accepted (201) and stored as Pending. -/
theorem submit_emptyStatus_default_witness :
    (submitResponse demoStore 3 1 "a@x.com" (some "") none).1 = 201 ∧
    (submitResponse demoStore 3 1 "a@x.com" (some "") none).2.eventAttendees
      = demoStore.eventAttendees ++ [newRsvpRow demoStore 3 1 "a@x.com" "Pending" none] :=
  (submit_emptyStatus_default demoStore 3 1 "a@x.com" none).2 (by decide) (by decide)
    (by decide) rfl (by decide)

/-- The events counter column matching a status string (0 if the string is
none of the four statuses). -/
def counterOf (e : EventRow) (st : String) : Int :=
  if st = "Attending" then e.attendingCount
  else if st = "Not Attending" then e.notAttendingCount
  else if st = "Maybe" then e.maybeCount
  else if st = "Pending" then e.pendingCount
  else 0

theorem counterOf_transfer (e : EventRow) (old new : String)
    (hold : old ∈ allowedStatuses) (hnew : new ∈ allowedStatuses) (hne : old ≠ new) :
    counterOf (incCounter new (decCounter old e)) new = counterOf e new + 1 ∧
    counterOf (incCounter new (decCounter old e)) old = counterOf e old - 1 ∧
    ∀ st ∈ allowedStatuses, st ≠ new → st ≠ old →
      counterOf (incCounter new (decCounter old e)) st = counterOf e st := by
  simp only [allowedStatuses, List.mem_cons, List.not_mem_nil, or_false] at hold hnew
  rcases hold with rfl | rfl | rfl | rfl <;> rcases hnew with rfl | rfl | rfl | rfl <;>
    first
    | exact absurd rfl hne
    | (refine ⟨by simp [counterOf, incCounter, decCounter],
        by simp [counterOf, incCounter, decCounter], ?_⟩
       intro st hst hs1 hs2
       simp only [allowedStatuses, List.mem_cons, List.not_mem_nil, or_false] at hst
       rcases hst with rfl | rfl | rfl | rfl <;> simp_all [counterOf, incCounter, decCounter])

/-- Claim C4: with valid inputs, updating an existing RSVP whose stored
status differs from the new one transfers exactly one unit from the counter
of the old status to the counter of the new status and leaves the other two
counters of that event unchanged. -/
theorem submit_transition (s : Store) (now : Nat) (eventId : Int) (email : String)
    (rs nts : Option String)
    (h1 : ¬ eventId ≤ 0) (h2 : email ≠ "") (h3 : emailOk email = true)
    (h4 : statusTruthy rs = true → rs.getD "" ∈ allowedStatuses)
    (ex : RsvpRow)
    (hfind : s.eventAttendees.find? (matchesPair eventId.toNat email) = some ex)
    (hold : ex.responseStatus ∈ allowedStatuses)
    (hne : ex.responseStatus ≠ resolveStatus rs)
    (e : EventRow) (hev : getEvent s eventId.toNat = some e) :
    getEvent (submitResponse s now eventId email rs nts).2 eventId.toNat
      = some (incCounter (resolveStatus rs) (decCounter ex.responseStatus e)) ∧
    counterOf (incCounter (resolveStatus rs) (decCounter ex.responseStatus e))
        (resolveStatus rs) = counterOf e (resolveStatus rs) + 1 ∧
    counterOf (incCounter (resolveStatus rs) (decCounter ex.responseStatus e))
        ex.responseStatus = counterOf e ex.responseStatus - 1 ∧
    ∀ st ∈ allowedStatuses, st ≠ resolveStatus rs → st ≠ ex.responseStatus →
      counterOf (incCounter (resolveStatus rs) (decCounter ex.responseStatus e)) st
        = counterOf e st := by
  have hnew : resolveStatus rs ∈ allowedStatuses := resolveStatus_mem rs h4
  obtain ⟨ht1, ht2, ht3⟩ :=
    counterOf_transfer e ex.responseStatus (resolveStatus rs) hold hnew hne
  refine ⟨?_, ht1, ht2, ht3⟩
  rw [submitResponse_update s now nts h1 h2 h3 h4 ex hfind]
  have hev' : s.events.find? (fun x => x.id == eventId.toNat) = some e := hev
  have hid : (e.id == eventId.toNat) = true := by simpa using List.find?_some hev'
  show (applyToEvent eventId.toNat (incCounter (resolveStatus rs))
      (applyToEvent eventId.toNat (decCounter ex.responseStatus) s.events)).find?
      (fun x => x.id == eventId.toNat) = _
  rw [find?_applyToEvent _ _ (fun x => incCounter_id _ x) _ _,
      find?_applyToEvent _ _ (fun x => decCounter_id _ x) _ _, hev']
  have hid' : e.id = eventId.toNat := by simpa using hid
  simp [hid', decCounter_id]

/-- The event of the C4 witness: one attendee Attending and two Pending. -/
def c4Event : EventRow := { demoEvent with attendingCount := 1, pendingCount := 2 }

/-- C4 witness RSVP rows. -/
def c4RowA : RsvpRow :=
  { id := 1, eventId := 1, attendeeEmail := "a@x.com", responseStatus := "Attending",
    rsvpDate := 0, notes := none, created_at := 0 }

/-- C4 witness RSVP row for the attendee that changes status. -/
def c4RowB : RsvpRow :=
  { id := 2, eventId := 1, attendeeEmail := "b@x.com", responseStatus := "Pending",
    rsvpDate := 0, notes := none, created_at := 0 }

/-- C4 witness RSVP row that stays Pending. -/
def c4RowC : RsvpRow :=
  { id := 3, eventId := 1, attendeeEmail := "c@x.com", responseStatus := "Pending",
    rsvpDate := 0, notes := none, created_at := 0 }

/-- C4 witness store: counters Attending 1, Pending 2, three RSVP rows. -/
def c4Store : Store :=
  { events := [c4Event], eventAttendees := [c4RowA, c4RowB, c4RowC],
    nextEventId := 2, nextRsvpId := 4 }

/-- Witness for claim C4: moving attendee b from Pending to Attending on
counters Attending 1 / Pending 2 yields Attending 2 / Pending 1. -/
theorem submit_transition_witness :
    (getEvent (submitResponse c4Store 9 1 "b@x.com" (some "Attending") none).2 (1 : Int).toNat
      = some (incCounter (resolveStatus (some "Attending"))
          (decCounter c4RowB.responseStatus c4Event)) ∧
     counterOf (incCounter (resolveStatus (some "Attending"))
          (decCounter c4RowB.responseStatus c4Event)) (resolveStatus (some "Attending"))
        = counterOf c4Event (resolveStatus (some "Attending")) + 1 ∧
     counterOf (incCounter (resolveStatus (some "Attending"))
          (decCounter c4RowB.responseStatus c4Event)) c4RowB.responseStatus
        = counterOf c4Event c4RowB.responseStatus - 1 ∧
     ∀ st ∈ allowedStatuses, st ≠ resolveStatus (some "Attending") →
        st ≠ c4RowB.responseStatus →
        counterOf (incCounter (resolveStatus (some "Attending"))
          (decCounter c4RowB.responseStatus c4Event)) st = counterOf c4Event st) ∧
    (submitResponse c4Store 9 1 "b@x.com" (some "Attending") none).2.events.map
      (fun e => (e.attendingCount, e.notAttendingCount, e.maybeCount, e.pendingCount))
      = [(2, 0, 0, 1)] :=
  ⟨submit_transition c4Store 9 1 "b@x.com" (some "Attending") none (by decide) (by decide)
      (by decide) (by decide) c4RowB (by decide) (by decide) (by decide) c4Event (by decide),
   by decide⟩

/-- Claim C3: the endpoint preserves the UNIQUE(eventId, attendeeEmail)
invariant, and after any successful call a second call for the same pair is
an in-place update: it answers 200 (not 201) and leaves the number of RSVP
rows unchanged, so at most one row per pair ever exists. -/
theorem upsert_unique (s : Store) (now : Nat) (eventId : Int) (email : String)
    (rs nts : Option String) :
    (PairsUnique s → PairsUnique (submitResponse s now eventId email rs nts).2) ∧
    (((submitResponse s now eventId email rs nts).1 = 200 ∨
      (submitResponse s now eventId email rs nts).1 = 201) →
      ∀ now2 rs2 nts2, (statusTruthy rs2 = true → rs2.getD "" ∈ allowedStatuses) →
        (submitResponse (submitResponse s now eventId email rs nts).2
            now2 eventId email rs2 nts2).1 = 200 ∧
        (submitResponse (submitResponse s now eventId email rs nts).2
            now2 eventId email rs2 nts2).2.eventAttendees.length
          = (submitResponse s now eventId email rs nts).2.eventAttendees.length) := by
  constructor
  · intro hu
    by_cases hval : eventId ≤ 0 ∨ email = "" ∨ ¬ emailOk email = true ∨
        (statusTruthy rs = true ∧ rs.getD "" ∉ allowedStatuses)
    · rw [submitResponse_invalid s now nts hval]
      exact hu
    · push_neg at hval
      obtain ⟨h1, h2, h3, h4⟩ := hval
      replace h1 : ¬ eventId ≤ 0 := not_le.mpr h1
      cases hfind : s.eventAttendees.find? (matchesPair eventId.toNat email) with
      | some ex =>
          rw [submitResponse_update s now nts h1 h2 h3 h4 ex hfind]
          unfold PairsUnique at hu ⊢
          rw [List.pairwise_map]
          refine hu.imp ?_
          intro a b hab hcl
          apply hab
          rwa [applyRsvpUpdate_eventId, applyRsvpUpdate_eventId,
               applyRsvpUpdate_attendeeEmail, applyRsvpUpdate_attendeeEmail] at hcl
      | none =>
          by_cases hev : ∃ e ∈ s.events, e.id = eventId.toNat
          · rw [submitResponse_insert s now nts h1 h2 h3 h4 hfind hev]
            unfold PairsUnique at hu ⊢
            rw [List.pairwise_append]
            refine ⟨hu, List.pairwise_singleton _ _, ?_⟩
            intro a ha b hb
            simp only [List.mem_singleton] at hb
            subst hb
            have hnm := List.find?_eq_none.mp hfind a ha
            intro hcl
            apply hnm
            simp only [newRsvpRow] at hcl
            simp [matchesPair, hcl.1, hcl.2]
          · rw [submitResponse_notFound s now nts h1 h2 h3 h4 hfind hev]
            exact hu
  · intro hsucc now2 rs2 nts2 h42
    have hval : ¬ (eventId ≤ 0 ∨ email = "" ∨ ¬ emailOk email = true ∨
        (statusTruthy rs = true ∧ rs.getD "" ∉ allowedStatuses)) := by
      intro h
      rw [submitResponse_invalid s now nts h] at hsucc
      simp at hsucc
    push_neg at hval
    obtain ⟨h1, h2, h3, h4⟩ := hval
    replace h1 : ¬ eventId ≤ 0 := not_le.mpr h1
    cases hfind : s.eventAttendees.find? (matchesPair eventId.toNat email) with
    | some ex =>
        rw [submitResponse_update s now nts h1 h2 h3 h4 ex hfind]
        have hfind2 : ((s.eventAttendees.map
            (applyRsvpUpdate now (resolveStatus rs) nts eventId.toNat email)).find?
              (matchesPair eventId.toNat email))
            = some (applyRsvpUpdate now (resolveStatus rs) nts eventId.toNat email ex) := by
          rw [find?_map_applyRsvpUpdate, hfind]
          rfl
        rw [submitResponse_update _ now2 nts2 h1 h2 h3 h42 _ hfind2]
        exact ⟨rfl, by simp⟩
    | none =>
        by_cases hev : ∃ e ∈ s.events, e.id = eventId.toNat
        · rw [submitResponse_insert s now nts h1 h2 h3 h4 hfind hev]
          have hfind2 : ((s.eventAttendees
              ++ [newRsvpRow s now eventId.toNat email (resolveStatus rs) nts]).find?
                (matchesPair eventId.toNat email))
              = some (newRsvpRow s now eventId.toNat email (resolveStatus rs) nts) := by
            rw [List.find?_append, hfind]
            simp [newRsvpRow, matchesPair]
          rw [submitResponse_update _ now2 nts2 h1 h2 h3 h42 _ hfind2]
          exact ⟨rfl, by simp⟩
        · rw [submitResponse_notFound s now nts h1 h2 h3 h4 hfind hev] at hsucc
          simp at hsucc

/-- Witness for claim C3: a first submission to the demo store creates the
row (201); repeating it answers 200 and adds no second row. -/
theorem upsert_unique_witness :
    PairsUnique (submitResponse demoStore 3 1 "a@x.com" (some "Attending") none).2 ∧
    (submitResponse (submitResponse demoStore 3 1 "a@x.com" (some "Attending") none).2
        4 1 "a@x.com" (some "Attending") none).1 = 200 ∧
    (submitResponse (submitResponse demoStore 3 1 "a@x.com" (some "Attending") none).2
        4 1 "a@x.com" (some "Attending") none).2.eventAttendees.length
      = (submitResponse demoStore 3 1 "a@x.com" (some "Attending") none).2.eventAttendees.length :=
  ⟨(upsert_unique demoStore 3 1 "a@x.com" (some "Attending") none).1 List.Pairwise.nil,
   ((upsert_unique demoStore 3 1 "a@x.com" (some "Attending") none).2 (Or.inr (by decide))
      4 (some "Attending") none (by decide)).1,
   ((upsert_unique demoStore 3 1 "a@x.com" (some "Attending") none).2 (Or.inr (by decide))
      4 (some "Attending") none (by decide)).2⟩

theorem submit_preserves_inv (s : Store) (now : Nat) (eventId : Int) (email : String)
    (rs nts : Option String) (hwf : StatusesValid s) (hcc : CountConsistent s) :
    StatusesValid (submitResponse s now eventId email rs nts).2 ∧
    CountConsistent (submitResponse s now eventId email rs nts).2 := by
  by_cases hval : eventId ≤ 0 ∨ email = "" ∨ ¬ emailOk email = true ∨
      (statusTruthy rs = true ∧ rs.getD "" ∉ allowedStatuses)
  · rw [submitResponse_invalid s now nts hval]
    exact ⟨hwf, hcc⟩
  · push_neg at hval
    obtain ⟨h1, h2, h3, h4⟩ := hval
    replace h1 : ¬ eventId ≤ 0 := not_le.mpr h1
    have hfs : resolveStatus rs ∈ allowedStatuses := resolveStatus_mem rs h4
    cases hfind : s.eventAttendees.find? (matchesPair eventId.toNat email) with
    | some ex =>
        have holdmem : ex.responseStatus ∈ allowedStatuses :=
          hwf ex (List.mem_of_find?_eq_some hfind)
        rw [submitResponse_update s now nts h1 h2 h3 h4 ex hfind]
        have hcnt : ∀ x : Nat,
            ((s.eventAttendees.map
              (applyRsvpUpdate now (resolveStatus rs) nts eventId.toNat email)).countP
                (fun r => r.eventId == x))
            = s.eventAttendees.countP (fun r => r.eventId == x) := fun x =>
          countP_eventId_map_applyRsvpUpdate now (resolveStatus rs) nts
            eventId.toNat email s.eventAttendees x
        constructor
        · intro r hr
          rcases List.mem_map.mp hr with ⟨r0, hr0, rfl⟩
          unfold applyRsvpUpdate
          split
          · exact hfs
          · exact hwf r0 hr0
        · intro e he
          rcases mem_applyToEvent.mp he with ⟨e1, he1, rfl⟩
          rcases mem_applyToEvent.mp he1 with ⟨e0, he0, rfl⟩
          have h0 := hcc e0 he0
          unfold countRsvps at h0 ⊢
          have hcollapse :
              (if ((if (e0.id == eventId.toNat) = true
                    then decCounter ex.responseStatus e0 else e0).id == eventId.toNat) = true
                then incCounter (resolveStatus rs)
                  (if (e0.id == eventId.toNat) = true
                    then decCounter ex.responseStatus e0 else e0)
                else if (e0.id == eventId.toNat) = true
                  then decCounter ex.responseStatus e0 else e0)
              = (if (e0.id == eventId.toNat) = true
                  then incCounter (resolveStatus rs) (decCounter ex.responseStatus e0)
                  else e0) := by
            by_cases hid : (e0.id == eventId.toNat) = true
            · simp [hid, decCounter_id]
            · simp [hid]
          rw [hcollapse]
          by_cases hid : (e0.id == eventId.toNat) = true
          · rw [if_pos hid, incCounter_id, decCounter_id,
                sumCounters_incCounter _ _ hfs, sumCounters_decCounter _ _ holdmem, hcnt]
            omega
          · rw [if_neg hid, hcnt]
            exact h0
    | none =>
        by_cases hev : ∃ e ∈ s.events, e.id = eventId.toNat
        · rw [submitResponse_insert s now nts h1 h2 h3 h4 hfind hev]
          constructor
          · intro r hr
            rcases List.mem_append.mp hr with hr | hr
            · exact hwf r hr
            · simp only [List.mem_singleton] at hr
              subst hr
              exact hfs
          · intro e he
            rcases mem_applyToEvent.mp he with ⟨e0, he0, rfl⟩
            have h0 := hcc e0 he0
            unfold countRsvps at h0 ⊢
            by_cases hid : (e0.id == eventId.toNat) = true
            · have hid' : e0.id = eventId.toNat := by simpa using hid
              have hone : ([newRsvpRow s now eventId.toNat email (resolveStatus rs) nts].countP
                  (fun r => r.eventId == e0.id)) = 1 := by
                simp [newRsvpRow, hid']
              rw [if_pos hid, incCounter_id, sumCounters_incCounter _ _ hfs,
                  List.countP_append, hone]
              omega
            · have hid' : e0.id ≠ eventId.toNat := by simpa using hid
              have hb : (eventId.toNat == e0.id) = false := by
                simp only [beq_eq_false_iff_ne]
                exact fun hh => hid' hh.symm
              have hzero : ([newRsvpRow s now eventId.toNat email (resolveStatus rs) nts].countP
                  (fun r => r.eventId == e0.id)) = 0 := by
                simp [newRsvpRow, hb]
              rw [if_neg hid, List.countP_append, hzero]
              omega
        · rw [submitResponse_notFound s now nts h1 h2 h3 h4 hfind hev]
          exact ⟨hwf, hcc⟩

theorem submitAll_preserves (calls : List SubmitCall) :
    ∀ s : Store, StatusesValid s → CountConsistent s →
      StatusesValid (submitAll s calls) ∧ CountConsistent (submitAll s calls) := by
  induction calls with
  | nil => intro s hwf hcc; exact ⟨hwf, hcc⟩
  | cons c cs ih =>
      intro s hwf hcc
      obtain ⟨hwf', hcc'⟩ :=
        submit_preserves_inv s c.now c.eventId c.attendeeEmail c.responseStatus c.notes hwf hcc
      exact ih _ hwf' hcc'

/-- Claim C1: on a store whose RSVP statuses satisfy the CHECK constraint
and whose counters are consistent, every attendee-response call, and every
sequence of such calls, keeps each events row with
attendingCount + notAttendingCount + maybeCount + pendingCount equal to the
number of RSVP rows for that event. -/
theorem counters_match_rows (s : Store) (hwf : StatusesValid s) (hcc : CountConsistent s) :
    (∀ now eventId email rs nts,
      StatusesValid (submitResponse s now eventId email rs nts).2 ∧
      CountConsistent (submitResponse s now eventId email rs nts).2) ∧
    (∀ calls : List SubmitCall,
      StatusesValid (submitAll s calls) ∧ CountConsistent (submitAll s calls)) :=
  ⟨fun now eventId email rs nts => submit_preserves_inv s now eventId email rs nts hwf hcc,
   fun calls => submitAll_preserves calls s hwf hcc⟩

/-- A sequence of upserts exercising insert, default status and transition. -/
def c1Calls : List SubmitCall :=
  [⟨3, 1, "a@x.com", some "Attending", none⟩,
   ⟨4, 1, "b@x.com", none, some "hi"⟩,
   ⟨5, 1, "a@x.com", some "Maybe", none⟩,
   ⟨6, 2, "a@x.com", some "Attending", none⟩]

/-- Witness for claim C1: running `c1Calls` against the demo store keeps the
counters consistent with the row count. -/
theorem counters_match_rows_witness :
    StatusesValid (submitAll demoStore c1Calls) ∧
    CountConsistent (submitAll demoStore c1Calls) :=
  (counters_match_rows demoStore (by simp [StatusesValid, demoStore])
    (by simp [CountConsistent, demoStore, demoEvent, sumCounters, countRsvps])).2 c1Calls

example : emailOk "a@x.com" = true := by decide
example : emailOk "ax.com" = false := by decide
example : emailOk "a@xcom" = false := by decide
example : emailOk "a@x.c om" = false := by decide
example : emailOk "@x.com" = false := by decide
example : emailOk "a@.c" = false := by decide
example : emailOk "a@b.c.d" = true := by decide

end EventDesk
